import Mathlib

set_option maxRecDepth 8192

/-!
Shallow embedding of the AVED Printing and Logging Library (PLL),
translated from src/fw/AMC/src/common/core_libs/pll/pll.c.

C strings are modelled as lists of characters (the bytes before the NUL
terminator).  Machine counters are naturals reduced modulo 2 ^ 32 where the C
code performs uint32_t arithmetic.  The OSAL primitives (mutex, semaphore,
memory copy, allocation) and the memory-mapped shared partition table are
external collaborators; their success or failure on a given call, and the
contents of the bootloader log blob, are supplied by an explicit environment
record.  The console sink is fire-and-forget: a call's console output is
returned as a list of rendered lines.
-/

/-- Upper sentinel constant bracketing the private data (pll.c line 32). -/
def UPPER_FIREWALL : Nat := 0xBABECAFE

/-- Lower sentinel constant bracketing the private data (pll.c line 33). -/
def LOWER_FIREWALL : Nat := 0xDEADFACE

/-- Stat counter index, from the PLL_STATS enumeration (pll.c lines 41-56). -/
def PLL_STATS_INIT_OVERALL_COMPLETE : Nat := 0

/-- Stat counter index (pll.c lines 41-56). -/
def PLL_STATS_CREATE_MUTEX : Nat := 1

/-- Stat counter index (pll.c lines 41-56). -/
def PLL_STATS_CREATE_SEMAPHORE : Nat := 2

/-- Stat counter index (pll.c lines 41-56). -/
def PLL_STATS_TAKE_MUTEX : Nat := 3

/-- Stat counter index (pll.c lines 41-56). -/
def PLL_STATS_RELEASE_MUTEX : Nat := 4

/-- Stat counter index (pll.c lines 41-56). -/
def PLL_STATS_PEND_SEMAPHORE : Nat := 5

/-- Stat counter index (pll.c lines 41-56). -/
def PLL_STATS_POST_SEMAPHORE : Nat := 6

/-- Stat counter index (pll.c lines 41-56). -/
def PLL_STATS_THREAD_SAFE_PRINT_COUNT : Nat := 7

/-- Stat counter index (pll.c lines 41-56). -/
def PLL_STATS_NON_THREAD_SAFE_PRINT_COUNT : Nat := 8

/-- Stat counter index (pll.c lines 41-56). -/
def PLL_STATS_LEVEL_CHANGE : Nat := 9

/-- Stat counter index (pll.c lines 41-56). -/
def PLL_STATS_LEVEL_RETRIEVAL : Nat := 10

/-- Stat counter index (pll.c lines 41-56). -/
def PLL_STATS_LOG_COLLECT_SUCCESS : Nat := 11

/-- Stat counter index (pll.c lines 41-56). -/
def PLL_STATS_MALLOC : Nat := 12

/-- Stat counter index (pll.c lines 41-56). -/
def PLL_STATS_FREE : Nat := 13

/-- Number of stat counters (pll.c lines 41-56). -/
def PLL_STATS_MAX : Nat := 14

/-- Error counter index, from the PLL_ERRORS enumeration (pll.c lines 58-71). -/
def PLL_ERRORS_INIT_TASK_CREATE_FAILED : Nat := 0

/-- Error counter index (pll.c lines 58-71). -/
def PLL_ERRORS_INIT_MUTEX_CREATE_FAILED : Nat := 1

/-- Error counter index (pll.c lines 58-71). -/
def PLL_ERRORS_INIT_SEMAPHORE_CREATE_FAILED : Nat := 2

/-- Error counter index (pll.c lines 58-71). -/
def PLL_ERRORS_MUTEX_RELEASE_FAILED : Nat := 3

/-- Error counter index (pll.c lines 58-71). -/
def PLL_ERRORS_MUTEX_TAKE_FAILED : Nat := 4

/-- Error counter index (pll.c lines 58-71). -/
def PLL_ERRORS_PEND_SEMAPHORE : Nat := 5

/-- Error counter index (pll.c lines 58-71). -/
def PLL_ERRORS_POST_SEMAPHORE : Nat := 6

/-- Error counter index (pll.c lines 58-71). -/
def PLL_ERRORS_VALIDATION_FAILED : Nat := 7

/-- Error counter index (pll.c lines 58-71). -/
def PLL_ERRORS_LOAD_PT_FAILED : Nat := 8

/-- Error counter index (pll.c lines 58-71). -/
def PLL_ERRORS_STORE_PT_FAILED : Nat := 9

/-- Error counter index (pll.c lines 58-71). -/
def PLL_ERRORS_LOG_COLLECT_FAILED : Nat := 10

/-- Error counter index (pll.c lines 58-71). -/
def PLL_ERRORS_MALLOC_FAILED : Nat := 11

/-- Number of error counters (pll.c lines 58-71). -/
def PLL_ERRORS_MAX : Nat := 12

/-- Modelled from the spec: the sizing constants come from pll.h and
profile_print.h, which are not in the source tree (only pll.c is).  The spec
fixes their roles (local ring capacity PLL_LOG_MAX_RECS, fixed entry capacity
PLL_LOG_ENTRY_SIZE in bytes, maximum expected shared buffer byte length
PLL_LOG_BUF_LEN, print buffer capacity PRINT_BUFFER_SIZE, severity enumeration
bound MAX_PLL_OUTPUT_LEVEL) but not their numeric values, so they are kept
abstract as parameters of every operation. -/
structure PllConsts where
  PLL_LOG_MAX_RECS : Nat
  PLL_LOG_ENTRY_SIZE : Nat
  PLL_LOG_BUF_LEN : Nat
  PRINT_BUFFER_SIZE : Nat
  MAX_PLL_OUTPUT_LEVEL : Nat
deriving DecidableEq

/-- Binary outcome of the public operations (OK / ERROR from standard.h). -/
inductive CStatus where
  | OK : CStatus
  | ERROR : CStatus
deriving DecidableEq

/-- The private singleton state of the module, translated field by field from
struct PLL_PRIVATE_DATA (pll.c lines 110-131).  The fixed-size two-dimensional
char array pcBootLogs becomes a list of entry strings indexed by slot; the two
counter arrays become lists of naturals of lengths PLL_STATS_MAX and
PLL_ERRORS_MAX; the opaque OSAL handles become Option values (some once
created). -/
structure PLL_PRIVATE_DATA where
  ulUpperFirewall : Nat
  iIsInitialised : Bool
  xOutputLevel : Nat
  xLoggingLevel : Nat
  pcBootLogs : List (List Char)
  iBootLogIndex : Nat
  iIsLogReady : Bool
  pvMtxHdl : Option Unit
  pvSemHdl : Option Unit
  ulStats : List Nat
  ulErrors : List Nat
  ulLowerFirewall : Nat
deriving DecidableEq

/-- The externally shared, memory-mapped log region reachable through the
partition table: the 32-bit write index stored at the log-message descriptor
address (read and written with HAL_IO_READ32 / HAL_IO_WRITE32), the declared
buffer byte length ulLogMsgBufferLen of the descriptor, and the ring of
fixed-size entries (each entry modelled as the C string held in its slot). -/
structure SharedLogState where
  ulLogIdx : Nat
  ulLogMsgBufferLen : Nat
  ring : List (List Char)
deriving DecidableEq

/-- Outcomes of the external OSAL / HAL collaborators for one call into the
module: whether each fallible primitive succeeds, and the contents of the
fixed-size bootloader (FSBL) log blob at HAL_FSBL_LOG_ADDRESS. -/
structure OsalEnv where
  iOSAL_Mutex_Create_Ok : Bool
  iOSAL_Semaphore_Create_Ok : Bool
  iOSAL_Mutex_Take_Ok : Bool
  iOSAL_Mutex_Release_Ok : Bool
  iOSAL_Semaphore_Pend_Ok : Bool
  iOSAL_Semaphore_Post_Ok : Bool
  pvOSAL_MemCpy_PT_Ok : Bool
  pvOSAL_MemCpy_Store_Ok : Bool
  pvOSAL_MemAlloc_Ok : Bool
  fsblLog : List Char
deriving DecidableEq

/-- The INC_STAT_COUNTER macro (pll.c line 81): bounds-checked increment of a
uint32_t counter, which wraps modulo 2 ^ 32. -/
def INC_STAT_COUNTER (x : Nat) (ulStats : List Nat) : List Nat :=
  if x < PLL_STATS_MAX then ulStats.set x ((ulStats.getD x 0 + 1) % 2 ^ 32) else ulStats

/-- The INC_ERROR_COUNTER macro (pll.c line 82): bounds-checked increment of a
uint32_t counter, which wraps modulo 2 ^ 32. -/
def INC_ERROR_COUNTER (x : Nat) (ulErrors : List Nat) : List Nat :=
  if x < PLL_ERRORS_MAX then ulErrors.set x ((ulErrors.getD x 0 + 1) % 2 ^ 32) else ulErrors

/-- Apply INC_STAT_COUNTER to the stats array held in the private data. -/
def pllIncStat (x : Nat) (st : PLL_PRIVATE_DATA) : PLL_PRIVATE_DATA :=
  { st with ulStats := INC_STAT_COUNTER x st.ulStats }

/-- Apply INC_ERROR_COUNTER to the errors array held in the private data. -/
def pllIncError (x : Nat) (st : PLL_PRIVATE_DATA) : PLL_PRIVATE_DATA :=
  { st with ulErrors := INC_ERROR_COUNTER x st.ulErrors }

/-- The sentinel check performed at the head of every operation:
UPPER_FIREWALL == pxThis->ulUpperFirewall and LOWER_FIREWALL ==
pxThis->ulLowerFirewall. -/
def pllFirewallsValid (st : PLL_PRIVATE_DATA) : Bool :=
  (st.ulUpperFirewall == UPPER_FIREWALL) && (st.ulLowerFirewall == LOWER_FIREWALL)

/-- Modelled from the spec: pcOSAL_StrNCpy is the external bounded string copy
primitive (OSAL, outside the source tree); copying a C string into a buffer of
n bytes keeps at most the first n characters. -/
def pcOSAL_StrNCpy (n : Nat) (src : List Char) : List Char :=
  src.take n

/-- Whether a character is one of the line terminators in the strcspn set
of iLogCollect, the characters of the C literal backslash-r backslash-n. -/
def pllIsLineTerm (c : Char) : Bool :=
  c == '\r' || c == '\n'

/-- The trimming statement pcTempBuf[strcspn(pcTempBuf, ...)] = 0 of
iLogCollect: cut the string at the first carriage return or line feed. -/
def pllTrimLine (s : List Char) : List Char :=
  s.takeWhile (fun c => !pllIsLineTerm c)

/-- The entry preparation both branches of iLogCollect perform on the input
line (pll.c lines 828-829 and 862-863): bounded copy into a
PLL_LOG_ENTRY_SIZE buffer, then cut at the first line terminator. -/
def pllLogEntryOf (C : PllConsts) (pcBuf : List Char) : List Char :=
  pllTrimLine (pcOSAL_StrNCpy C.PLL_LOG_ENTRY_SIZE pcBuf)

/-- iLogCollect (pll.c lines 807-873).  Flowing branch (iIsLogReady TRUE):
load the partition-table descriptor (fallible), read the current shared write
index, trim and truncate the line, bounded-copy it into the shared record,
store the record (fallible), then advance the index modulo PLL_LOG_MAX_RECS
(uint32_t arithmetic) and write it back.  Buffering branch (iIsLogReady
FALSE): trim and truncate identically, pre-advance the local index modulo
PLL_LOG_MAX_RECS and overwrite that slot.  Cache flushes have no functional
effect in the model. -/
def iLogCollect (C : PllConsts) (env : OsalEnv) (pcBuf : List Char)
    (st : PLL_PRIVATE_DATA) (sh : SharedLogState) :
    CStatus × PLL_PRIVATE_DATA × SharedLogState :=
  if st.iIsLogReady then
    if env.pvOSAL_MemCpy_PT_Ok then
      let ulLogIdx := sh.ulLogIdx
      let pcTempBuf := pllLogEntryOf C pcBuf
      let xLogBuff := pcOSAL_StrNCpy C.PLL_LOG_ENTRY_SIZE pcTempBuf
      if env.pvOSAL_MemCpy_Store_Ok then
        (CStatus.OK, st,
         { sh with
             ring := sh.ring.set ulLogIdx xLogBuff
             ulLogIdx := ((ulLogIdx + 1) % 2 ^ 32) % C.PLL_LOG_MAX_RECS })
      else
        (CStatus.ERROR, pllIncError PLL_ERRORS_STORE_PT_FAILED st, sh)
    else
      (CStatus.ERROR, pllIncError PLL_ERRORS_LOAD_PT_FAILED st, sh)
  else
    let pcTempBuf := pllLogEntryOf C pcBuf
    let newIdx := (st.iBootLogIndex + 1) % C.PLL_LOG_MAX_RECS
    (CStatus.OK,
     { st with
         iBootLogIndex := newIdx
         pcBootLogs := st.pcBootLogs.set newIdx
           (pcOSAL_StrNCpy C.PLL_LOG_ENTRY_SIZE pcTempBuf) },
     sh)

/-- iPLL_Initialise (pll.c lines 186-227).  Requires valid sentinels and a
module not yet initialised; creates the mutex then the semaphore (each
fallible, each failure counted separately), then stores the two thresholds,
counts the successes and flips iIsInitialised.  Any other entry condition
counts a validation failure.  The PLL_ERR console prints on the failure paths
go to the external fire-and-forget console sink and touch no module state. -/
def iPLL_Initialise (env : OsalEnv) (xOutputLevel xLoggingLevel : Nat)
    (st : PLL_PRIVATE_DATA) : CStatus × PLL_PRIVATE_DATA :=
  if pllFirewallsValid st = true ∧ st.iIsInitialised = false then
    if env.iOSAL_Mutex_Create_Ok = false then
      (CStatus.ERROR, pllIncError PLL_ERRORS_INIT_MUTEX_CREATE_FAILED st)
    else
      let st1 := { st with pvMtxHdl := some () }
      if env.iOSAL_Semaphore_Create_Ok = false then
        (CStatus.ERROR, pllIncError PLL_ERRORS_INIT_SEMAPHORE_CREATE_FAILED st1)
      else
        let st2 := { st1 with pvSemHdl := some () }
        let st3 := pllIncStat PLL_STATS_CREATE_SEMAPHORE (pllIncStat PLL_STATS_CREATE_MUTEX st2)
        let st4 := { st3 with xOutputLevel := xOutputLevel, xLoggingLevel := xLoggingLevel }
        let st5 := pllIncStat PLL_STATS_INIT_OVERALL_COMPLETE st4
        (CStatus.OK, { st5 with iIsInitialised := true })
  else
    (CStatus.ERROR, pllIncError PLL_ERRORS_VALIDATION_FAILED st)

/-- iPLL_SetOutputLevel (pll.c lines 232-270): guarded by sentinels,
initialisation and MAX_PLL_OUTPUT_LEVEL > xOutputLevel; take the mutex
(fallible), store the level, release the mutex (fallible); only the
take-release-success path returns OK. -/
def iPLL_SetOutputLevel (C : PllConsts) (env : OsalEnv) (xOutputLevel : Nat)
    (st : PLL_PRIVATE_DATA) : CStatus × PLL_PRIVATE_DATA :=
  if pllFirewallsValid st = true ∧ st.iIsInitialised = true ∧
      xOutputLevel < C.MAX_PLL_OUTPUT_LEVEL then
    if env.iOSAL_Mutex_Take_Ok then
      let st1 := pllIncStat PLL_STATS_TAKE_MUTEX st
      let st2 := { st1 with xOutputLevel := xOutputLevel }
      let st3 := pllIncStat PLL_STATS_LEVEL_CHANGE st2
      if env.iOSAL_Mutex_Release_Ok then
        (CStatus.OK, pllIncStat PLL_STATS_RELEASE_MUTEX st3)
      else
        (CStatus.ERROR, pllIncError PLL_ERRORS_MUTEX_RELEASE_FAILED st3)
    else
      (CStatus.ERROR, pllIncError PLL_ERRORS_MUTEX_TAKE_FAILED st)
  else
    (CStatus.ERROR, pllIncError PLL_ERRORS_VALIDATION_FAILED st)

/-- iPLL_GetOutputLevel (pll.c lines 275-313): the non-null output pointer
becomes the Boolean pxNonNull; the retrieved level is returned as an Option
(written before the release attempt, so it is delivered even when the release
fails). -/
def iPLL_GetOutputLevel (env : OsalEnv) (pxNonNull : Bool)
    (st : PLL_PRIVATE_DATA) : CStatus × PLL_PRIVATE_DATA × Option Nat :=
  if pllFirewallsValid st = true ∧ st.iIsInitialised = true ∧ pxNonNull = true then
    if env.iOSAL_Mutex_Take_Ok then
      let st1 := pllIncStat PLL_STATS_TAKE_MUTEX st
      let out := some st1.xOutputLevel
      let st2 := pllIncStat PLL_STATS_LEVEL_RETRIEVAL st1
      if env.iOSAL_Mutex_Release_Ok then
        (CStatus.OK, pllIncStat PLL_STATS_RELEASE_MUTEX st2, out)
      else
        (CStatus.ERROR, pllIncError PLL_ERRORS_MUTEX_RELEASE_FAILED st2, out)
    else
      (CStatus.ERROR, pllIncError PLL_ERRORS_MUTEX_TAKE_FAILED st, none)
  else
    (CStatus.ERROR, pllIncError PLL_ERRORS_VALIDATION_FAILED st, none)

/-- iPLL_SetLoggingLevel (pll.c lines 318-356): same shape as
iPLL_SetOutputLevel but stores xLoggingLevel. -/
def iPLL_SetLoggingLevel (C : PllConsts) (env : OsalEnv) (xLoggingLevel : Nat)
    (st : PLL_PRIVATE_DATA) : CStatus × PLL_PRIVATE_DATA :=
  if pllFirewallsValid st = true ∧ st.iIsInitialised = true ∧
      xLoggingLevel < C.MAX_PLL_OUTPUT_LEVEL then
    if env.iOSAL_Mutex_Take_Ok then
      let st1 := pllIncStat PLL_STATS_TAKE_MUTEX st
      let st2 := { st1 with xLoggingLevel := xLoggingLevel }
      let st3 := pllIncStat PLL_STATS_LEVEL_CHANGE st2
      if env.iOSAL_Mutex_Release_Ok then
        (CStatus.OK, pllIncStat PLL_STATS_RELEASE_MUTEX st3)
      else
        (CStatus.ERROR, pllIncError PLL_ERRORS_MUTEX_RELEASE_FAILED st3)
    else
      (CStatus.ERROR, pllIncError PLL_ERRORS_MUTEX_TAKE_FAILED st)
  else
    (CStatus.ERROR, pllIncError PLL_ERRORS_VALIDATION_FAILED st)

/-- iPLL_GetLoggingLevel (pll.c lines 361-399): same shape as
iPLL_GetOutputLevel but retrieves xLoggingLevel. -/
def iPLL_GetLoggingLevel (env : OsalEnv) (pxNonNull : Bool)
    (st : PLL_PRIVATE_DATA) : CStatus × PLL_PRIVATE_DATA × Option Nat :=
  if pllFirewallsValid st = true ∧ st.iIsInitialised = true ∧ pxNonNull = true then
    if env.iOSAL_Mutex_Take_Ok then
      let st1 := pllIncStat PLL_STATS_TAKE_MUTEX st
      let out := some st1.xLoggingLevel
      let st2 := pllIncStat PLL_STATS_LEVEL_RETRIEVAL st1
      if env.iOSAL_Mutex_Release_Ok then
        (CStatus.OK, pllIncStat PLL_STATS_RELEASE_MUTEX st2, out)
      else
        (CStatus.ERROR, pllIncError PLL_ERRORS_MUTEX_RELEASE_FAILED st2, out)
    else
      (CStatus.ERROR, pllIncError PLL_ERRORS_MUTEX_TAKE_FAILED st, none)
  else
    (CStatus.ERROR, pllIncError PLL_ERRORS_VALIDATION_FAILED st, none)

/-- Result of one vPLL_Output call: the state and shared region afterwards,
the list of lines written to the console sink, and the list of buffers handed
to iLogCollect. -/
structure PLL_OutputResult where
  st : PLL_PRIVATE_DATA
  sh : SharedLogState
  console : List (List Char)
  logCalls : List (List Char)
deriving DecidableEq

/-- vPLL_Output (pll.c lines 404-465).  The variadic rendering is out of
scope: the fully expanded text is the extra argument rendered, and the local
pcBuffer holds its first PRINT_BUFFER_SIZE - 1 characters as vsnprintf
truncates.  Validation needs valid sentinels, initialisation and
strlen(pcFormat) at most PRINT_BUFFER_SIZE.  On a successful bounded
semaphore pend, the console sink receives the buffer iff xOutputLevel is at
least the call severity and iLogCollect receives it iff xLoggingLevel is at
least the call severity, then the semaphore is posted (fallible).  On pend
timeout the buffer goes straight to the console and nothing else happens. -/
def vPLL_Output (C : PllConsts) (env : OsalEnv) (xOutputLevel : Nat)
    (pcFormat rendered : List Char)
    (st : PLL_PRIVATE_DATA) (sh : SharedLogState) : PLL_OutputResult :=
  if pllFirewallsValid st = true ∧ st.iIsInitialised = true ∧
      pcFormat.length ≤ C.PRINT_BUFFER_SIZE then
    let pcBuffer := rendered.take (C.PRINT_BUFFER_SIZE - 1)
    if env.iOSAL_Semaphore_Pend_Ok then
      let st1 := pllIncStat PLL_STATS_PEND_SEMAPHORE st
      let outPair :=
        if st1.xOutputLevel ≥ xOutputLevel then
          (pllIncStat PLL_STATS_THREAD_SAFE_PRINT_COUNT st1, [pcBuffer])
        else
          (st1, ([] : List (List Char)))
      let logTriple :=
        if outPair.1.xLoggingLevel ≥ xOutputLevel then
          let r := iLogCollect C env pcBuffer outPair.1 sh
          if r.1 = CStatus.OK then
            (pllIncStat PLL_STATS_LOG_COLLECT_SUCCESS r.2.1, r.2.2, [pcBuffer])
          else
            (pllIncError PLL_ERRORS_LOG_COLLECT_FAILED r.2.1, r.2.2, [pcBuffer])
        else
          (outPair.1, sh, ([] : List (List Char)))
      let stFinal :=
        if env.iOSAL_Semaphore_Post_Ok then
          pllIncStat PLL_STATS_POST_SEMAPHORE logTriple.1
        else
          pllIncError PLL_ERRORS_POST_SEMAPHORE logTriple.1
      ⟨stFinal, logTriple.2.1, outPair.2, logTriple.2.2⟩
    else
      ⟨pllIncStat PLL_STATS_NON_THREAD_SAFE_PRINT_COUNT st, sh, [pcBuffer], []⟩
  else
    ⟨pllIncError PLL_ERRORS_VALIDATION_FAILED st, sh, [], []⟩

/-- vPLL_Printf (pll.c lines 470-524): same rendering convention as
vPLL_Output but with no severity gate and no iLogCollect; when the module is
uninitialised, or the pend times out, the buffer still goes to the console
best-effort.  Returns the state and the console lines. -/
def vPLL_Printf (C : PllConsts) (env : OsalEnv) (pcFormat rendered : List Char)
    (st : PLL_PRIVATE_DATA) : PLL_PRIVATE_DATA × List (List Char) :=
  if pllFirewallsValid st = true ∧ pcFormat.length ≤ C.PRINT_BUFFER_SIZE then
    let pcBuffer := rendered.take (C.PRINT_BUFFER_SIZE - 1)
    if st.iIsInitialised then
      if env.iOSAL_Semaphore_Pend_Ok then
        let st1 := pllIncStat PLL_STATS_PEND_SEMAPHORE st
        let st2 := pllIncStat PLL_STATS_THREAD_SAFE_PRINT_COUNT st1
        let st3 :=
          if env.iOSAL_Semaphore_Post_Ok then
            pllIncStat PLL_STATS_POST_SEMAPHORE st2
          else
            pllIncError PLL_ERRORS_POST_SEMAPHORE st2
        (st3, [pcBuffer])
      else
        (pllIncStat PLL_STATS_NON_THREAD_SAFE_PRINT_COUNT st, [pcBuffer])
    else
      (pllIncStat PLL_STATS_NON_THREAD_SAFE_PRINT_COUNT st, [pcBuffer])
  else
    (pllIncError PLL_ERRORS_VALIDATION_FAILED st, [])

/-- First console banner printed by iPLL_DumpLog (pll.c line 542): a CRLF, a
rule of 70 equals signs, and a CRLF. -/
def pllDumpLogHeader1 : List Char :=
  "\r\n".toList ++ List.replicate 70 '=' ++ "\r\n".toList

/-- Second console banner printed by iPLL_DumpLog (pll.c line 543). -/
def pllDumpLogHeader2 : List Char :=
  "Dumping log from shared memory...\r\n".toList

/-- Third console banner printed by iPLL_DumpLog (pll.c line 544): a rule of
70 equals signs followed by two CRLFs. -/
def pllDumpLogHeader3 : List Char :=
  List.replicate 70 '=' ++ "\r\n\r\n".toList

/-- Format string of the per-record print in iPLL_DumpLog (pll.c line 560). -/
def pllDumpLogRecFmt : List Char :=
  "%s\r\n".toList

/-- iPLL_DumpLog (pll.c lines 529-577): guarded by sentinels and
initialisation; loads the partition-table descriptor (fallible), prints three
banners through vPLL_Printf, then walks all PLL_LOG_MAX_RECS shared slots and
prints every slot whose text is non-empty through vPLL_Printf.  Only the
private state changes (through the nested vPLL_Printf counter updates); the
shared region is read-only here. -/
def iPLL_DumpLog (C : PllConsts) (env : OsalEnv) (st : PLL_PRIVATE_DATA)
    (sh : SharedLogState) : CStatus × PLL_PRIVATE_DATA :=
  if pllFirewallsValid st = true ∧ st.iIsInitialised = true then
    if env.pvOSAL_MemCpy_PT_Ok then
      let st1 := (vPLL_Printf C env pllDumpLogHeader1 pllDumpLogHeader1 st).1
      let st2 := (vPLL_Printf C env pllDumpLogHeader2 pllDumpLogHeader2 st1).1
      let st3 := (vPLL_Printf C env pllDumpLogHeader3 pllDumpLogHeader3 st2).1
      let stFinal :=
        (List.range C.PLL_LOG_MAX_RECS).foldl
          (fun s i =>
            let xMsgBuff := sh.ring.getD i []
            if xMsgBuff ≠ [] then
              (vPLL_Printf C env pllDumpLogRecFmt (xMsgBuff ++ "\r\n".toList) s).1
            else
              s)
          st3
      (CStatus.OK, stFinal)
    else
      (CStatus.ERROR, pllIncError PLL_ERRORS_LOAD_PT_FAILED st)
  else
    (CStatus.ERROR, pllIncError PLL_ERRORS_VALIDATION_FAILED st)

/-- iPLL_ClearLog (pll.c lines 582-617): guarded by sentinels and
initialisation; loads the partition-table descriptor (fallible); when the
declared buffer length is within PLL_LOG_BUF_LEN, zeroes that many bytes of
the shared buffer (each entry whose first byte falls inside the zeroed range
becomes the empty string) and returns OK; when the declared length exceeds
the bound, the status is simply left at ERROR with no counter change. -/
def iPLL_ClearLog (C : PllConsts) (env : OsalEnv) (st : PLL_PRIVATE_DATA)
    (sh : SharedLogState) : CStatus × PLL_PRIVATE_DATA × SharedLogState :=
  if pllFirewallsValid st = true ∧ st.iIsInitialised = true then
    if env.pvOSAL_MemCpy_PT_Ok then
      if sh.ulLogMsgBufferLen ≤ C.PLL_LOG_BUF_LEN then
        (CStatus.OK, st,
         { sh with
             ring := sh.ring.mapIdx
               (fun i e =>
                 if i * C.PLL_LOG_ENTRY_SIZE < sh.ulLogMsgBufferLen then [] else e) })
      else
        (CStatus.ERROR, st, sh)
    else
      (CStatus.ERROR, pllIncError PLL_ERRORS_LOAD_PT_FAILED st, sh)
  else
    (CStatus.ERROR, pllIncError PLL_ERRORS_VALIDATION_FAILED st, sh)

/-- Tokenisation performed by the strtok loops over the delimiter set
carriage-return / line-feed: the maximal non-empty runs of non-delimiter
characters. -/
def strtokCRLF (s : List Char) : List (List Char) :=
  (s.splitOnP pllIsLineTerm).filter (fun t => t ≠ [])

/-- The complete newline-delimited records of the FSBL log blob as walked by
the two-token strtok loop of iPLL_SendBootRecords and iPLL_DumpFsblLog: the
blob is read as a C string (up to its first NUL byte), split into tokens, and
the final token is discarded as a possibly partial fragment. -/
def fsblRecords (env : OsalEnv) : List (List Char) :=
  (strtokCRLF (env.fsblLog.takeWhile (fun c => c ≠ Char.ofNat 0))).dropLast

/-- iPLL_DumpFsblLog (pll.c lines 622-672): guarded by sentinels and
initialisation; allocates a scratch buffer (fallible), prints every complete
FSBL record to the console sink through the external PLL_LOG macro (console
sink only, no module state effect) and frees the buffer.  Only the
malloc/free stat counters and, on failure, the malloc error counter move. -/
def iPLL_DumpFsblLog (env : OsalEnv) (st : PLL_PRIVATE_DATA) :
    CStatus × PLL_PRIVATE_DATA :=
  if pllFirewallsValid st = true ∧ st.iIsInitialised = true then
    if env.pvOSAL_MemAlloc_Ok then
      (CStatus.OK, pllIncStat PLL_STATS_FREE (pllIncStat PLL_STATS_MALLOC st))
    else
      (CStatus.ERROR, pllIncError PLL_ERRORS_MALLOC_FAILED st)
  else
    (CStatus.ERROR, pllIncError PLL_ERRORS_VALIDATION_FAILED st)

/-- The while loop of iPLL_SendBootRecords feeding a list of records through
iLogCollect one after the other, threading the private state and the shared
region and discarding each status. -/
def pllDrainRecords (C : PllConsts) (env : OsalEnv) (recs : List (List Char))
    (st : PLL_PRIVATE_DATA) (sh : SharedLogState) :
    PLL_PRIVATE_DATA × SharedLogState :=
  recs.foldl
    (fun acc pcBuf =>
      let r := iLogCollect C env pcBuf acc.1 acc.2
      (r.2.1, r.2.2))
    (st, sh)

/-- The AMC boot record loop of iPLL_SendBootRecords (pll.c lines 723-729):
walk the local slots in index order, feed every slot whose first byte is not
NUL through iLogCollect, and also record the list of fed slot texts.  The
slot text is read from the current state at each iteration, as the C loop
reads pxThis->pcBootLogs[i] at call time. -/
def pllDrainBootLogs (C : PllConsts) (env : OsalEnv) (st : PLL_PRIVATE_DATA)
    (sh : SharedLogState) :
    PLL_PRIVATE_DATA × SharedLogState × List (List Char) :=
  (List.range C.PLL_LOG_MAX_RECS).foldl
    (fun acc i =>
      let slot := acc.1.pcBootLogs.getD i []
      if slot ≠ [] then
        let r := iLogCollect C env slot acc.1 acc.2.1
        (r.2.1, r.2.2, acc.2.2 ++ [slot])
      else
        acc)
    (st, sh, [])

/-- Result of one iPLL_SendBootRecords call: status, final private state,
final shared region, and the list of buffers fed to iLogCollect in order. -/
structure PLL_SendResult where
  status : CStatus
  st : PLL_PRIVATE_DATA
  sh : SharedLogState
  fed : List (List Char)
deriving DecidableEq

/-- iPLL_SendBootRecords (pll.c lines 677-739): guarded by the sentinels
only.  Writes 0 to the shared write index with HAL_IO_WRITE32, sets
iIsLogReady to TRUE, then (when the scratch allocation succeeds) feeds every
complete FSBL record through iLogCollect, sleeps, and finally feeds every
non-empty local boot-log slot through iLogCollect in slot order.  Always
returns OK once the sentinels pass. -/
def iPLL_SendBootRecords (C : PllConsts) (env : OsalEnv)
    (st : PLL_PRIVATE_DATA) (sh : SharedLogState) : PLL_SendResult :=
  if pllFirewallsValid st = true then
    let sh0 := { sh with ulLogIdx := 0 }
    let st0 := { st with iIsLogReady := true }
    let fsblPart :=
      if env.pvOSAL_MemAlloc_Ok then
        let st1 := pllIncStat PLL_STATS_MALLOC st0
        let recs := fsblRecords env
        let p := pllDrainRecords C env recs st1 sh0
        (pllIncStat PLL_STATS_FREE p.1, p.2, recs)
      else
        (st0, sh0, ([] : List (List Char)))
    let q := pllDrainBootLogs C env fsblPart.1 fsblPart.2.1
    ⟨CStatus.OK, q.1, q.2.1, fsblPart.2.2 ++ q.2.2⟩
  else
    ⟨CStatus.ERROR, pllIncError PLL_ERRORS_VALIDATION_FAILED st, sh, []⟩

/-- iPLL_PrintStatistics (pll.c lines 744-774): guarded by the sentinels
only; renders every counter through the external PLL_INF console macro
(console sink only, no module state effect) and returns OK. -/
def iPLL_PrintStatistics (st : PLL_PRIVATE_DATA) : CStatus × PLL_PRIVATE_DATA :=
  if pllFirewallsValid st = true then
    (CStatus.OK, st)
  else
    (CStatus.ERROR, pllIncError PLL_ERRORS_VALIDATION_FAILED st)

/-- iPLL_ClearStatistics (pll.c lines 779-798): guarded by the sentinels and
initialisation; zeroes the two counter arrays with pvOSAL_MemSet and returns
OK. -/
def iPLL_ClearStatistics (st : PLL_PRIVATE_DATA) : CStatus × PLL_PRIVATE_DATA :=
  if pllFirewallsValid st = true ∧ st.iIsInitialised = true then
    (CStatus.OK,
     { st with
         ulStats := List.replicate PLL_STATS_MAX 0
         ulErrors := List.replicate PLL_ERRORS_MAX 0 })
  else
    (CStatus.ERROR, pllIncError PLL_ERRORS_VALIDATION_FAILED st)

/-- Generic invariant preservation along a left fold. -/
theorem pllFoldlInvariant {α β : Type _} (P : β → Prop) (f : β → α → β)
    (l : List α) (b : β) (hb : P b) (hf : ∀ b a, P b → P (f b a)) :
    P (l.foldl f b) := by
  induction l generalizing b with
  | nil => exact hb
  | cons x xs ih => exact ih _ (hf _ _ hb)

/-- The pair of sentinel fields of a state, used to express that an operation
never writes either sentinel. -/
def pllFw (st : PLL_PRIVATE_DATA) : Nat × Nat :=
  (st.ulUpperFirewall, st.ulLowerFirewall)

/-- Incrementing a stat counter leaves every other index unchanged. -/
theorem INC_STAT_COUNTER_getD_ne (x j : Nat) (ul : List Nat) (hj : j ≠ x) :
    (INC_STAT_COUNTER x ul).getD j 0 = ul.getD j 0 := by
  unfold INC_STAT_COUNTER
  split
  · simp [List.getD_eq_getElem?_getD, List.getElem?_set_ne (Ne.symm hj)]
  · rfl

/-- Incrementing an error counter leaves every other index unchanged. -/
theorem INC_ERROR_COUNTER_getD_ne (x j : Nat) (ul : List Nat) (hj : j ≠ x) :
    (INC_ERROR_COUNTER x ul).getD j 0 = ul.getD j 0 := by
  unfold INC_ERROR_COUNTER
  split
  · simp [List.getD_eq_getElem?_getD, List.getElem?_set_ne (Ne.symm hj)]
  · rfl

/-- Incrementing an in-range stat counter adds one modulo 2 ^ 32 at that
index. -/
theorem INC_STAT_COUNTER_getD_self (x : Nat) (ul : List Nat)
    (hx : x < PLL_STATS_MAX) (hlen : x < ul.length) :
    (INC_STAT_COUNTER x ul).getD x 0 = (ul.getD x 0 + 1) % 2 ^ 32 := by
  unfold INC_STAT_COUNTER
  rw [if_pos hx]
  simp [List.getD_eq_getElem?_getD, List.getElem?_set_self hlen]

/-- Incrementing an in-range error counter adds one modulo 2 ^ 32 at that
index. -/
theorem INC_ERROR_COUNTER_getD_self (x : Nat) (ul : List Nat)
    (hx : x < PLL_ERRORS_MAX) (hlen : x < ul.length) :
    (INC_ERROR_COUNTER x ul).getD x 0 = (ul.getD x 0 + 1) % 2 ^ 32 := by
  unfold INC_ERROR_COUNTER
  rw [if_pos hx]
  simp [List.getD_eq_getElem?_getD, List.getElem?_set_self hlen]

/-- iLogCollect never writes either sentinel. -/
theorem iLogCollect_fw (C : PllConsts) (env : OsalEnv) (pcBuf : List Char)
    (st : PLL_PRIVATE_DATA) (sh : SharedLogState) :
    pllFw (iLogCollect C env pcBuf st sh).2.1 = pllFw st := by
  unfold iLogCollect
  split
  · split
    · split
      · rfl
      · simp [pllFw, pllIncError]
    · simp [pllFw, pllIncError]
  · rfl

/-- Once the transport latch is up, iLogCollect takes the flowing branch and
leaves the flag, the local boot-log ring and its index untouched. -/
theorem iLogCollect_flowing_state (C : PllConsts) (env : OsalEnv)
    (pcBuf : List Char) (st : PLL_PRIVATE_DATA) (sh : SharedLogState)
    (h : st.iIsLogReady = true) :
    (iLogCollect C env pcBuf st sh).2.1.iIsLogReady = true ∧
    (iLogCollect C env pcBuf st sh).2.1.pcBootLogs = st.pcBootLogs ∧
    (iLogCollect C env pcBuf st sh).2.1.iBootLogIndex = st.iBootLogIndex := by
  unfold iLogCollect
  rw [if_pos h]
  split
  · split
    · exact ⟨h, rfl, rfl⟩
    · exact ⟨h, rfl, rfl⟩
  · exact ⟨h, rfl, rfl⟩

/-- pllDrainRecords preserves the transport flag and the local boot-log ring
when the flag is already up. -/
theorem pllDrainRecords_flowing_state (C : PllConsts) (env : OsalEnv)
    (recs : List (List Char)) (st : PLL_PRIVATE_DATA) (sh : SharedLogState)
    (h : st.iIsLogReady = true) :
    (pllDrainRecords C env recs st sh).1.iIsLogReady = true ∧
    (pllDrainRecords C env recs st sh).1.pcBootLogs = st.pcBootLogs := by
  unfold pllDrainRecords
  refine pllFoldlInvariant
    (fun p => p.1.iIsLogReady = true ∧ p.1.pcBootLogs = st.pcBootLogs)
    _ recs (st, sh) ⟨h, rfl⟩ ?_
  intro b a hb
  have hc := iLogCollect_flowing_state C env a b.1 b.2 hb.1
  exact ⟨hc.1, hc.2.1.trans hb.2⟩

/-- pllDrainRecords never writes either sentinel. -/
theorem pllDrainRecords_fw (C : PllConsts) (env : OsalEnv)
    (recs : List (List Char)) (st : PLL_PRIVATE_DATA) (sh : SharedLogState) :
    pllFw (pllDrainRecords C env recs st sh).1 = pllFw st := by
  unfold pllDrainRecords
  refine pllFoldlInvariant (fun p => pllFw p.1 = pllFw st) _ recs (st, sh) rfl ?_
  intro b a hb
  exact (iLogCollect_fw C env a b.1 b.2).trans hb

/-- pllDrainBootLogs preserves the transport flag when it is already up, and
never writes either sentinel. -/
theorem pllDrainBootLogs_state (C : PllConsts) (env : OsalEnv)
    (st : PLL_PRIVATE_DATA) (sh : SharedLogState) :
    (st.iIsLogReady = true → (pllDrainBootLogs C env st sh).1.iIsLogReady = true) ∧
    pllFw (pllDrainBootLogs C env st sh).1 = pllFw st := by
  unfold pllDrainBootLogs
  have h := pllFoldlInvariant
    (fun (p : PLL_PRIVATE_DATA × SharedLogState × List (List Char)) =>
      (st.iIsLogReady = true → p.1.iIsLogReady = true) ∧ pllFw p.1 = pllFw st)
    (fun acc i =>
      let slot := acc.1.pcBootLogs.getD i []
      if slot ≠ [] then
        let r := iLogCollect C env slot acc.1 acc.2.1
        (r.2.1, r.2.2, acc.2.2 ++ [slot])
      else
        acc)
    (List.range C.PLL_LOG_MAX_RECS) (st, sh, []) ⟨fun h => h, rfl⟩ ?_
  · exact h
  · intro b a hb
    dsimp only
    split
    · refine ⟨fun hr => ?_, (iLogCollect_fw C env _ b.1 b.2.1).trans hb.2⟩
      exact (iLogCollect_flowing_state C env _ b.1 b.2.1 (hb.1 hr)).1
    · exact hb

/-- Example sizing constants used to instantiate the theorems on concrete
inputs: 2 ring slots, 4-byte entries, an 8-byte shared buffer bound, a
100-byte print buffer and 3 severity levels. -/
def exC : PllConsts := ⟨2, 4, 8, 100, 3⟩

/-- Example environment where every primitive succeeds and the FSBL blob
holds two complete records followed by a final fragment. -/
def exEnv : OsalEnv := ⟨true, true, true, true, true, true, true, true, true, "AB\r\nCD\r\nEF".toList⟩

/-- Freshly zeroed stat counters. -/
def exStats0 : List Nat := List.replicate PLL_STATS_MAX 0

/-- Freshly zeroed error counters. -/
def exErrors0 : List Nat := List.replicate PLL_ERRORS_MAX 0

/-- Example initialised state with valid sentinels, both thresholds at 1 and
an empty local boot-log ring. -/
def exStInit : PLL_PRIVATE_DATA :=
  ⟨UPPER_FIREWALL, true, 1, 1, [[], []], 0, false, some (), some (), exStats0, exErrors0, LOWER_FIREWALL⟩

/-- Example uninitialised state with valid sentinels. -/
def exStUninit : PLL_PRIVATE_DATA :=
  ⟨UPPER_FIREWALL, false, 0, 0, [[], []], 0, false, none, none, exStats0, exErrors0, LOWER_FIREWALL⟩

/-- Example shared region with a zero write index and two empty slots. -/
def exSh : SharedLogState := ⟨0, 8, [[], []]⟩

/-- Example state after the transport latch has already flipped. -/
def exStReady : PLL_PRIVATE_DATA := { exStInit with iIsLogReady := true }

/-- Example shared region whose write index currently stands at 5. -/
def exSh5 : SharedLogState := ⟨5, 8, [[], []]⟩

/-- Example environment where the scratch allocation fails. -/
def exEnvNoMalloc : OsalEnv := { exEnv with pvOSAL_MemAlloc_Ok := false }

/-- C1, counterexample.  In a state whose transport latch is already up and
whose shared write index stands at 5, a further iPLL_SendBootRecords call
returns success but writes 0 over the shared write index: the claimed absence
of a second destructive reset is false. -/
theorem C1_counterexample :
    exStReady.iIsLogReady = true ∧
    exSh5.ulLogIdx = 5 ∧
    (iPLL_SendBootRecords exC exEnvNoMalloc exStReady exSh5).status = CStatus.OK ∧
    (iPLL_SendBootRecords exC exEnvNoMalloc exStReady exSh5).sh.ulLogIdx = 0 ∧
    (iPLL_SendBootRecords exC exEnvNoMalloc exStReady exSh5).sh.ulLogIdx ≠ exSh5.ulLogIdx := by
  decide

/-- C1, amended.  A further iPLL_SendBootRecords call in a state whose
transport latch is already up still returns success and leaves the latch up,
but it does reset the shared write index to zero again: the call's entire
outcome is the same as if the prior shared write index had already been zero,
so the prior index is destroyed on every call. -/
theorem C1_amended_second_call (C : PllConsts) (env : OsalEnv)
    (st : PLL_PRIVATE_DATA) (sh : SharedLogState)
    (hFw : pllFirewallsValid st = true) (hReady : st.iIsLogReady = true) :
    (iPLL_SendBootRecords C env st sh).status = CStatus.OK ∧
    (iPLL_SendBootRecords C env st sh).st.iIsLogReady = true ∧
    iPLL_SendBootRecords C env st sh = iPLL_SendBootRecords C env st { sh with ulLogIdx := 0 } := by
  refine ⟨?_, ?_, ?_⟩
  · unfold iPLL_SendBootRecords
    rw [if_pos hFw]
  · unfold iPLL_SendBootRecords
    rw [if_pos hFw]
    dsimp only
    split
    · refine (pllDrainBootLogs_state C env _ _).1 ?_
      dsimp only [pllIncStat]
      exact (pllDrainRecords_flowing_state C env _ _ _ rfl).1
    · exact (pllDrainBootLogs_state C env _ _).1 rfl
  · unfold iPLL_SendBootRecords
    rw [if_pos hFw, if_pos hFw]

/-- C1, witness: the amended theorem at a concrete ready state with a
non-zero prior shared index. -/
theorem C1_amended_second_call_witness :
    pllFirewallsValid exStReady = true ∧ exStReady.iIsLogReady = true ∧
    (iPLL_SendBootRecords exC exEnv exStReady exSh5).status = CStatus.OK ∧
    (iPLL_SendBootRecords exC exEnv exStReady exSh5).st.iIsLogReady = true ∧
    iPLL_SendBootRecords exC exEnv exStReady exSh5
      = iPLL_SendBootRecords exC exEnv exStReady { exSh5 with ulLogIdx := 0 } :=
  ⟨by decide, by decide,
   (C1_amended_second_call exC exEnv exStReady exSh5 (by decide) (by decide)).1,
   (C1_amended_second_call exC exEnv exStReady exSh5 (by decide) (by decide)).2.1,
   (C1_amended_second_call exC exEnv exStReady exSh5 (by decide) (by decide)).2.2⟩

/-- C2: with valid sentinels, an initialised module, a format within the
print-buffer capacity and a successful semaphore pend, vPLL_Output writes
the rendered buffer to the console sink iff the stored output threshold is
at least the call severity, and hands it to iLogCollect iff the stored
logging threshold is at least the call severity; hence for severities below
the threshold the sink is always attempted and for severities above it the
sink is never touched. -/
theorem C2_output_level_gate (C : PllConsts) (env : OsalEnv) (S : Nat)
    (pcFormat rendered : List Char) (st : PLL_PRIVATE_DATA) (sh : SharedLogState)
    (hFw : pllFirewallsValid st = true) (hInit : st.iIsInitialised = true)
    (hLen : pcFormat.length ≤ C.PRINT_BUFFER_SIZE)
    (hPend : env.iOSAL_Semaphore_Pend_Ok = true) :
    (vPLL_Output C env S pcFormat rendered st sh).console
        = (if S ≤ st.xOutputLevel then [rendered.take (C.PRINT_BUFFER_SIZE - 1)] else []) ∧
    (vPLL_Output C env S pcFormat rendered st sh).logCalls
        = (if S ≤ st.xLoggingLevel then [rendered.take (C.PRINT_BUFFER_SIZE - 1)] else []) ∧
    (st.xOutputLevel < S → (vPLL_Output C env S pcFormat rendered st sh).console = []) ∧
    (S ≤ st.xOutputLevel →
      (vPLL_Output C env S pcFormat rendered st sh).console
        = [rendered.take (C.PRINT_BUFFER_SIZE - 1)]) ∧
    (st.xLoggingLevel < S → (vPLL_Output C env S pcFormat rendered st sh).logCalls = []) ∧
    (S ≤ st.xLoggingLevel →
      (vPLL_Output C env S pcFormat rendered st sh).logCalls
        = [rendered.take (C.PRINT_BUFFER_SIZE - 1)]) := by
  have h1 : (vPLL_Output C env S pcFormat rendered st sh).console
      = (if S ≤ st.xOutputLevel then [rendered.take (C.PRINT_BUFFER_SIZE - 1)] else []) := by
    unfold vPLL_Output
    rw [if_pos ⟨hFw, hInit, hLen⟩, if_pos hPend]
    by_cases hout : S ≤ st.xOutputLevel <;>
      simp [pllIncStat, pllIncError, hout, ge_iff_le]
  have h2 : (vPLL_Output C env S pcFormat rendered st sh).logCalls
      = (if S ≤ st.xLoggingLevel then [rendered.take (C.PRINT_BUFFER_SIZE - 1)] else []) := by
    unfold vPLL_Output
    rw [if_pos ⟨hFw, hInit, hLen⟩, if_pos hPend]
    by_cases hlog : S ≤ st.xLoggingLevel <;>
      by_cases hout : S ≤ st.xOutputLevel <;>
        simp [pllIncStat, pllIncError, hout, hlog, ge_iff_le] <;>
        split <;> rfl
  refine ⟨h1, h2, ?_, ?_, ?_, ?_⟩
  · intro h
    rw [h1, if_neg (by omega)]
  · intro h
    rw [h1, if_pos h]
  · intro h
    rw [h2, if_neg (by omega)]
  · intro h
    rw [h2, if_pos h]

/-- C2, witness: thresholds 1, severity 1 on one side and severity 2 on the
other, showing the sink written and the sink skipped. -/
theorem C2_output_level_gate_witness :
    pllFirewallsValid exStInit = true ∧ exStInit.iIsInitialised = true ∧
    "x=%d".toList.length ≤ exC.PRINT_BUFFER_SIZE ∧
    exEnv.iOSAL_Semaphore_Pend_Ok = true ∧
    (vPLL_Output exC exEnv 1 "x=%d".toList "x=5".toList exStInit exSh).console
      = ["x=5".toList.take (exC.PRINT_BUFFER_SIZE - 1)] ∧
    (vPLL_Output exC exEnv 2 "x=%d".toList "x=5".toList exStInit exSh).logCalls = [] :=
  ⟨by decide, by decide, by decide, by decide,
   (C2_output_level_gate exC exEnv 1 "x=%d".toList "x=5".toList exStInit exSh
      (by decide) (by decide) (by decide) (by decide)).2.2.2.1 (by decide),
   (C2_output_level_gate exC exEnv 2 "x=%d".toList "x=5".toList exStInit exSh
      (by decide) (by decide) (by decide) (by decide)).2.2.2.2.1 (by decide)⟩

/-- C3: with valid sentinels, an initialised module and a format within
capacity, a failed semaphore pend makes vPLL_Output write the rendered
buffer to the console exactly once, never call iLogCollect, and leave the
shared region and the local boot-log ring (slots and index) untouched; the
only state change is the non-thread-safe print counter. -/
theorem C3_pend_timeout_console_only (C : PllConsts) (env : OsalEnv) (S : Nat)
    (pcFormat rendered : List Char) (st : PLL_PRIVATE_DATA) (sh : SharedLogState)
    (hFw : pllFirewallsValid st = true) (hInit : st.iIsInitialised = true)
    (hLen : pcFormat.length ≤ C.PRINT_BUFFER_SIZE)
    (hPend : env.iOSAL_Semaphore_Pend_Ok = false) :
    (vPLL_Output C env S pcFormat rendered st sh).console
        = [rendered.take (C.PRINT_BUFFER_SIZE - 1)] ∧
    (vPLL_Output C env S pcFormat rendered st sh).logCalls = [] ∧
    (vPLL_Output C env S pcFormat rendered st sh).sh = sh ∧
    (vPLL_Output C env S pcFormat rendered st sh).st.pcBootLogs = st.pcBootLogs ∧
    (vPLL_Output C env S pcFormat rendered st sh).st.iBootLogIndex = st.iBootLogIndex ∧
    (vPLL_Output C env S pcFormat rendered st sh).st
        = pllIncStat PLL_STATS_NON_THREAD_SAFE_PRINT_COUNT st := by
  unfold vPLL_Output
  rw [if_pos ⟨hFw, hInit, hLen⟩, if_neg (by simp [hPend])]
  exact ⟨rfl, rfl, rfl, rfl, rfl, rfl⟩

/-- C3, witness: the timeout branch at a concrete state. -/
theorem C3_pend_timeout_console_only_witness :
    pllFirewallsValid exStInit = true ∧ exStInit.iIsInitialised = true ∧
    "x=%d".toList.length ≤ exC.PRINT_BUFFER_SIZE ∧
    ({ exEnv with iOSAL_Semaphore_Pend_Ok := false } : OsalEnv).iOSAL_Semaphore_Pend_Ok = false ∧
    (vPLL_Output exC { exEnv with iOSAL_Semaphore_Pend_Ok := false } 1
        "x=%d".toList "x=5".toList exStInit exSh).console
      = ["x=5".toList.take (exC.PRINT_BUFFER_SIZE - 1)] ∧
    (vPLL_Output exC { exEnv with iOSAL_Semaphore_Pend_Ok := false } 1
        "x=%d".toList "x=5".toList exStInit exSh).logCalls = [] ∧
    (vPLL_Output exC { exEnv with iOSAL_Semaphore_Pend_Ok := false } 1
        "x=%d".toList "x=5".toList exStInit exSh).sh = exSh :=
  ⟨by decide, by decide, by decide, by decide,
   (C3_pend_timeout_console_only exC { exEnv with iOSAL_Semaphore_Pend_Ok := false } 1
      "x=%d".toList "x=5".toList exStInit exSh (by decide) (by decide) (by decide) (by decide)).1,
   (C3_pend_timeout_console_only exC { exEnv with iOSAL_Semaphore_Pend_Ok := false } 1
      "x=%d".toList "x=5".toList exStInit exSh (by decide) (by decide) (by decide) (by decide)).2.1,
   (C3_pend_timeout_console_only exC { exEnv with iOSAL_Semaphore_Pend_Ok := false } 1
      "x=%d".toList "x=5".toList exStInit exSh (by decide) (by decide) (by decide) (by decide)).2.2.1⟩

/-- C4: calling iPLL_Initialise on an already initialised state (with valid
sentinels) returns ERROR, increments only the validation-failed error
counter, and leaves every other field of the module state unchanged -
thresholds, initialised flag, both synchronisation handles and the stat
counters. -/
theorem C4_double_initialise_no_effect (env : OsalEnv) (a b : Nat)
    (st : PLL_PRIVATE_DATA)
    (hFw : pllFirewallsValid st = true) (hInit : st.iIsInitialised = true) :
    (iPLL_Initialise env a b st).1 = CStatus.ERROR ∧
    (iPLL_Initialise env a b st).2 = pllIncError PLL_ERRORS_VALIDATION_FAILED st ∧
    (iPLL_Initialise env a b st).2.iIsInitialised = true ∧
    (iPLL_Initialise env a b st).2.xOutputLevel = st.xOutputLevel ∧
    (iPLL_Initialise env a b st).2.xLoggingLevel = st.xLoggingLevel ∧
    (iPLL_Initialise env a b st).2.pvMtxHdl = st.pvMtxHdl ∧
    (iPLL_Initialise env a b st).2.pvSemHdl = st.pvSemHdl ∧
    (iPLL_Initialise env a b st).2.ulStats = st.ulStats ∧
    (iPLL_Initialise env a b st).2.ulErrors
        = INC_ERROR_COUNTER PLL_ERRORS_VALIDATION_FAILED st.ulErrors := by
  unfold iPLL_Initialise
  rw [if_neg (by simp [hInit])]
  exact ⟨rfl, rfl, hInit, rfl, rfl, rfl, rfl, rfl, rfl⟩

/-- C4, witness: the second initialise call at a concrete initialised
state. -/
theorem C4_double_initialise_no_effect_witness :
    pllFirewallsValid exStInit = true ∧ exStInit.iIsInitialised = true ∧
    (iPLL_Initialise exEnv 2 2 exStInit).1 = CStatus.ERROR ∧
    (iPLL_Initialise exEnv 2 2 exStInit).2
      = pllIncError PLL_ERRORS_VALIDATION_FAILED exStInit :=
  ⟨by decide, by decide,
   (C4_double_initialise_no_effect exEnv 2 2 exStInit (by decide) (by decide)).1,
   (C4_double_initialise_no_effect exEnv 2 2 exStInit (by decide) (by decide)).2.1⟩

/-- C5, counterexample.  In a concrete uninitialised state with valid
sentinels, iPLL_SendBootRecords succeeds (the claim says it fails) and
iPLL_ClearStatistics fails (the claim says it succeeds): both operations are
guarded differently from the claim. -/
theorem C5_counterexample :
    exStUninit.iIsInitialised = false ∧
    pllFirewallsValid exStUninit = true ∧
    (iPLL_SendBootRecords exC exEnv exStUninit exSh).status = CStatus.OK ∧
    (iPLL_ClearStatistics exStUninit).1 = CStatus.ERROR := by
  decide

/-- C5, amended.  When the module is uninitialised and the sentinels are
valid, the level setters and getters, vPLL_Output, iPLL_DumpLog,
iPLL_ClearLog, iPLL_DumpFsblLog and iPLL_ClearStatistics all fail with a
validation error and no effect beyond that error counter, and vPLL_Printf
still prints best-effort; iPLL_SendBootRecords and iPLL_PrintStatistics are
guarded by the sentinels only, so both succeed when uninitialised. -/
theorem C5_amended_uninitialised_guard (C : PllConsts) (env : OsalEnv)
    (x S : Nat) (pxNonNull : Bool) (pcFormat rendered : List Char)
    (st : PLL_PRIVATE_DATA) (sh : SharedLogState)
    (hFw : pllFirewallsValid st = true) (hUninit : st.iIsInitialised = false)
    (hFmt : pcFormat.length ≤ C.PRINT_BUFFER_SIZE) :
    iPLL_SetOutputLevel C env x st
        = (CStatus.ERROR, pllIncError PLL_ERRORS_VALIDATION_FAILED st) ∧
    iPLL_GetOutputLevel env pxNonNull st
        = (CStatus.ERROR, pllIncError PLL_ERRORS_VALIDATION_FAILED st, none) ∧
    iPLL_SetLoggingLevel C env x st
        = (CStatus.ERROR, pllIncError PLL_ERRORS_VALIDATION_FAILED st) ∧
    iPLL_GetLoggingLevel env pxNonNull st
        = (CStatus.ERROR, pllIncError PLL_ERRORS_VALIDATION_FAILED st, none) ∧
    vPLL_Output C env S pcFormat rendered st sh
        = ⟨pllIncError PLL_ERRORS_VALIDATION_FAILED st, sh, [], []⟩ ∧
    iPLL_DumpLog C env st sh
        = (CStatus.ERROR, pllIncError PLL_ERRORS_VALIDATION_FAILED st) ∧
    iPLL_ClearLog C env st sh
        = (CStatus.ERROR, pllIncError PLL_ERRORS_VALIDATION_FAILED st, sh) ∧
    iPLL_DumpFsblLog env st
        = (CStatus.ERROR, pllIncError PLL_ERRORS_VALIDATION_FAILED st) ∧
    iPLL_ClearStatistics st
        = (CStatus.ERROR, pllIncError PLL_ERRORS_VALIDATION_FAILED st) ∧
    (iPLL_SendBootRecords C env st sh).status = CStatus.OK ∧
    iPLL_PrintStatistics st = (CStatus.OK, st) ∧
    (vPLL_Printf C env pcFormat rendered st).2
        = [rendered.take (C.PRINT_BUFFER_SIZE - 1)] ∧
    (vPLL_Printf C env pcFormat rendered st).1
        = pllIncStat PLL_STATS_NON_THREAD_SAFE_PRINT_COUNT st := by
  refine ⟨?_, ?_, ?_, ?_, ?_, ?_, ?_, ?_, ?_, ?_, ?_, ?_, ?_⟩
  · unfold iPLL_SetOutputLevel
    rw [if_neg (by simp [hUninit])]
  · unfold iPLL_GetOutputLevel
    rw [if_neg (by simp [hUninit])]
  · unfold iPLL_SetLoggingLevel
    rw [if_neg (by simp [hUninit])]
  · unfold iPLL_GetLoggingLevel
    rw [if_neg (by simp [hUninit])]
  · unfold vPLL_Output
    rw [if_neg (by simp [hUninit])]
  · unfold iPLL_DumpLog
    rw [if_neg (by simp [hUninit])]
  · unfold iPLL_ClearLog
    rw [if_neg (by simp [hUninit])]
  · unfold iPLL_DumpFsblLog
    rw [if_neg (by simp [hUninit])]
  · unfold iPLL_ClearStatistics
    rw [if_neg (by simp [hUninit])]
  · unfold iPLL_SendBootRecords
    rw [if_pos hFw]
  · unfold iPLL_PrintStatistics
    rw [if_pos hFw]
  · unfold vPLL_Printf
    rw [if_pos ⟨hFw, hFmt⟩, if_neg (by simp [hUninit])]
  · unfold vPLL_Printf
    rw [if_pos ⟨hFw, hFmt⟩, if_neg (by simp [hUninit])]

/-- C5, witness: the amended guard behaviour at a concrete uninitialised
state. -/
theorem C5_amended_uninitialised_guard_witness :
    pllFirewallsValid exStUninit = true ∧ exStUninit.iIsInitialised = false ∧
    "hi".toList.length ≤ exC.PRINT_BUFFER_SIZE ∧
    iPLL_SetOutputLevel exC exEnv 1 exStUninit
      = (CStatus.ERROR, pllIncError PLL_ERRORS_VALIDATION_FAILED exStUninit) ∧
    iPLL_ClearStatistics exStUninit
      = (CStatus.ERROR, pllIncError PLL_ERRORS_VALIDATION_FAILED exStUninit) ∧
    (iPLL_SendBootRecords exC exEnv exStUninit exSh).status = CStatus.OK ∧
    iPLL_PrintStatistics exStUninit = (CStatus.OK, exStUninit) ∧
    (vPLL_Printf exC exEnv "hi".toList "hi".toList exStUninit).2
      = ["hi".toList.take (exC.PRINT_BUFFER_SIZE - 1)] :=
  ⟨by decide, by decide, by decide,
   (C5_amended_uninitialised_guard exC exEnv 1 1 true "hi".toList "hi".toList
      exStUninit exSh (by decide) (by decide) (by decide)).1,
   (C5_amended_uninitialised_guard exC exEnv 1 1 true "hi".toList "hi".toList
      exStUninit exSh (by decide) (by decide) (by decide)).2.2.2.2.2.2.2.2.1,
   (C5_amended_uninitialised_guard exC exEnv 1 1 true "hi".toList "hi".toList
      exStUninit exSh (by decide) (by decide) (by decide)).2.2.2.2.2.2.2.2.2.1,
   (C5_amended_uninitialised_guard exC exEnv 1 1 true "hi".toList "hi".toList
      exStUninit exSh (by decide) (by decide) (by decide)).2.2.2.2.2.2.2.2.2.2.1,
   (C5_amended_uninitialised_guard exC exEnv 1 1 true "hi".toList "hi".toList
      exStUninit exSh (by decide) (by decide) (by decide)).2.2.2.2.2.2.2.2.2.2.2.1⟩

/-- Stat counter array with every counter at the 32-bit maximum. -/
def exStatsMax : List Nat := List.replicate PLL_STATS_MAX (2 ^ 32 - 1)

/-- Error counter array with every counter at the 32-bit maximum. -/
def exErrorsMax : List Nat := List.replicate PLL_ERRORS_MAX (2 ^ 32 - 1)

/-- C6, counterexample.  Incrementing a stat counter that already holds the
maximum representable 32-bit value does not leave it at the maximum: it wraps
to zero, which is also a decrease without any ClearStatistics call. -/
theorem C6_counterexample :
    exStatsMax.getD 0 0 = 2 ^ 32 - 1 ∧
    (INC_STAT_COUNTER 0 exStatsMax).getD 0 0 = 0 ∧
    (INC_STAT_COUNTER 0 exStatsMax).getD 0 0 < exStatsMax.getD 0 0 := by
  decide

/-- C6, amended.  Each in-range counter increment adds one modulo 2 ^ 32 at
its own index and leaves every other index unchanged: below the 32-bit
maximum the counter increases by exactly one, and at the maximum it wraps
silently to zero instead of saturating. -/
theorem C6_amended_counters_wrap (x j : Nat) (ulS ulE : List Nat)
    (hxS : x < PLL_STATS_MAX) (hlenS : x < ulS.length)
    (hxE : x < PLL_ERRORS_MAX) (hlenE : x < ulE.length) (hj : j ≠ x) :
    (INC_STAT_COUNTER x ulS).getD x 0 = (ulS.getD x 0 + 1) % 2 ^ 32 ∧
    (ulS.getD x 0 < 2 ^ 32 - 1 → (INC_STAT_COUNTER x ulS).getD x 0 = ulS.getD x 0 + 1) ∧
    (ulS.getD x 0 = 2 ^ 32 - 1 → (INC_STAT_COUNTER x ulS).getD x 0 = 0) ∧
    (INC_STAT_COUNTER x ulS).getD j 0 = ulS.getD j 0 ∧
    (INC_ERROR_COUNTER x ulE).getD x 0 = (ulE.getD x 0 + 1) % 2 ^ 32 ∧
    (ulE.getD x 0 < 2 ^ 32 - 1 → (INC_ERROR_COUNTER x ulE).getD x 0 = ulE.getD x 0 + 1) ∧
    (ulE.getD x 0 = 2 ^ 32 - 1 → (INC_ERROR_COUNTER x ulE).getD x 0 = 0) ∧
    (INC_ERROR_COUNTER x ulE).getD j 0 = ulE.getD j 0 := by
  refine ⟨INC_STAT_COUNTER_getD_self x ulS hxS hlenS, ?_, ?_,
          INC_STAT_COUNTER_getD_ne x j ulS hj,
          INC_ERROR_COUNTER_getD_self x ulE hxE hlenE, ?_, ?_,
          INC_ERROR_COUNTER_getD_ne x j ulE hj⟩
  · intro h
    rw [INC_STAT_COUNTER_getD_self x ulS hxS hlenS]
    omega
  · intro h
    rw [INC_STAT_COUNTER_getD_self x ulS hxS hlenS, h]
    norm_num
  · intro h
    rw [INC_ERROR_COUNTER_getD_self x ulE hxE hlenE]
    omega
  · intro h
    rw [INC_ERROR_COUNTER_getD_self x ulE hxE hlenE, h]
    norm_num

/-- C6, witness: the amended increment behaviour at index 0 of counter
arrays pinned at the 32-bit maximum, exhibiting the wraparound to zero. -/
theorem C6_amended_counters_wrap_witness :
    0 < PLL_STATS_MAX ∧ 0 < exStatsMax.length ∧
    0 < PLL_ERRORS_MAX ∧ 0 < exErrorsMax.length ∧ (1 : Nat) ≠ 0 ∧
    (INC_STAT_COUNTER 0 exStatsMax).getD 0 0 = (exStatsMax.getD 0 0 + 1) % 2 ^ 32 ∧
    (INC_STAT_COUNTER 0 exStatsMax).getD 0 0 = 0 ∧
    (INC_STAT_COUNTER 0 exStatsMax).getD 1 0 = exStatsMax.getD 1 0 ∧
    (INC_ERROR_COUNTER 0 exErrorsMax).getD 0 0 = 0 :=
  ⟨by decide, by decide, by decide, by decide, by decide,
   (C6_amended_counters_wrap 0 1 exStatsMax exErrorsMax (by decide) (by decide)
      (by decide) (by decide) (by decide)).1,
   (C6_amended_counters_wrap 0 1 exStatsMax exErrorsMax (by decide) (by decide)
      (by decide) (by decide) (by decide)).2.2.1 (by decide),
   (C6_amended_counters_wrap 0 1 exStatsMax exErrorsMax (by decide) (by decide)
      (by decide) (by decide) (by decide)).2.2.2.1,
   (C6_amended_counters_wrap 0 1 exStatsMax exErrorsMax (by decide) (by decide)
      (by decide) (by decide) (by decide)).2.2.2.2.2.2.1 (by decide)⟩

/-- C7: in both persistence states, the entry iLogCollect stores is the
input line truncated to the PLL_LOG_ENTRY_SIZE capacity and cut at the first
carriage return or line feed; truncating then stripping equals stripping
then truncating. -/
theorem C7_log_collect_entry_shape (C : PllConsts) (env : OsalEnv)
    (pcBuf : List Char) (st : PLL_PRIVATE_DATA) (sh : SharedLogState)
    (hLen : st.pcBootLogs.length = C.PLL_LOG_MAX_RECS)
    (hN : 0 < C.PLL_LOG_MAX_RECS)
    (hRing : sh.ulLogIdx < sh.ring.length) :
    (st.iIsLogReady = false →
      (iLogCollect C env pcBuf st sh).2.1.pcBootLogs.getD
          ((st.iBootLogIndex + 1) % C.PLL_LOG_MAX_RECS) []
        = pllTrimLine (pcBuf.take C.PLL_LOG_ENTRY_SIZE)) ∧
    (st.iIsLogReady = true → env.pvOSAL_MemCpy_PT_Ok = true →
      env.pvOSAL_MemCpy_Store_Ok = true →
      (iLogCollect C env pcBuf st sh).2.2.ring.getD sh.ulLogIdx []
        = pllTrimLine (pcBuf.take C.PLL_LOG_ENTRY_SIZE)) ∧
    pllTrimLine (pcBuf.take C.PLL_LOG_ENTRY_SIZE)
      = (pllTrimLine pcBuf).take C.PLL_LOG_ENTRY_SIZE := by
  have hshort : (pllLogEntryOf C pcBuf).length ≤ C.PLL_LOG_ENTRY_SIZE := by
    unfold pllLogEntryOf pllTrimLine pcOSAL_StrNCpy
    exact le_trans (List.Sublist.length_le (List.takeWhile_sublist _))
      (List.length_take_le _ _)
  have hself : pcOSAL_StrNCpy C.PLL_LOG_ENTRY_SIZE (pllLogEntryOf C pcBuf)
      = pllLogEntryOf C pcBuf := List.take_of_length_le hshort
  refine ⟨?_, ?_, ?_⟩
  · intro hB
    unfold iLogCollect
    rw [if_neg (by simp [hB])]
    have hlt : (st.iBootLogIndex + 1) % C.PLL_LOG_MAX_RECS < st.pcBootLogs.length := by
      rw [hLen]
      exact Nat.mod_lt _ hN
    simp only [List.getD_eq_getElem?_getD, List.getElem?_set_self hlt, Option.getD_some]
    rw [hself]
    rfl
  · intro hR hPT hStore
    unfold iLogCollect
    rw [if_pos hR, if_pos hPT, if_pos hStore]
    simp only [List.getD_eq_getElem?_getD, List.getElem?_set_self hRing, Option.getD_some]
    rw [hself]
    rfl
  · unfold pllTrimLine
    exact (List.take_takeWhile _ _).symm

/-- C7, witness: a line with an embedded line terminator and excess length
stored through the buffering branch of iLogCollect at a concrete state. -/
theorem C7_log_collect_entry_shape_witness :
    exStInit.pcBootLogs.length = exC.PLL_LOG_MAX_RECS ∧
    0 < exC.PLL_LOG_MAX_RECS ∧
    exSh.ulLogIdx < exSh.ring.length ∧
    exStInit.iIsLogReady = false ∧
    (iLogCollect exC exEnv "abcdef\r\nxyz".toList exStInit exSh).2.1.pcBootLogs.getD
        ((exStInit.iBootLogIndex + 1) % exC.PLL_LOG_MAX_RECS) []
      = pllTrimLine ("abcdef\r\nxyz".toList.take exC.PLL_LOG_ENTRY_SIZE) ∧
    pllTrimLine ("abcdef\r\nxyz".toList.take exC.PLL_LOG_ENTRY_SIZE)
      = (pllTrimLine "abcdef\r\nxyz".toList).take exC.PLL_LOG_ENTRY_SIZE :=
  ⟨by decide, by decide, by decide, by decide,
   (C7_log_collect_entry_shape exC exEnv "abcdef\r\nxyz".toList exStInit exSh
      (by decide) (by decide) (by decide)).1 (by decide),
   (C7_log_collect_entry_shape exC exEnv "abcdef\r\nxyz".toList exStInit exSh
      (by decide) (by decide) (by decide)).2.2⟩

/-- The boot-log drain fold feeds exactly the non-empty slots of the starting
state in slot order, as long as the transport latch stays up (the flowing
branch of iLogCollect never rewrites the local slots). -/
theorem pllDrainBootLogsFedAux (C : PllConsts) (env : OsalEnv) (l : List Nat) :
    ∀ (st : PLL_PRIVATE_DATA) (sh : SharedLogState) (acc : List (List Char)),
      st.iIsLogReady = true →
      (l.foldl
        (fun acc i =>
          let slot := acc.1.pcBootLogs.getD i []
          if slot ≠ [] then
            let r := iLogCollect C env slot acc.1 acc.2.1
            (r.2.1, r.2.2, acc.2.2 ++ [slot])
          else
            acc)
        (st, sh, acc)).2.2
      = acc ++ l.filterMap
          (fun i => if st.pcBootLogs.getD i [] ≠ []
                    then some (st.pcBootLogs.getD i []) else none) := by
  induction l with
  | nil =>
    intro st sh acc h
    simp
  | cons i t ih =>
    intro st sh acc h
    rw [List.foldl_cons, List.filterMap_cons]
    dsimp only
    by_cases hs : st.pcBootLogs.getD i [] ≠ []
    · rw [if_pos hs, if_pos hs]
      have hst := iLogCollect_flowing_state C env (st.pcBootLogs.getD i []) st sh h
      rw [ih _ _ _ hst.1, hst.2.1]
      simp
    · rw [if_neg hs, if_neg hs]
      exact ih _ _ _ h

/-- C8: after iPLL_SendBootRecords (with the scratch allocation succeeding),
the persisted sink receives first every complete newline-delimited FSBL
record with the final fragment discarded, in blob order, and then every
non-empty local boot-log slot in slot-index order. -/
theorem C8_send_boot_records_order (C : PllConsts) (env : OsalEnv)
    (st : PLL_PRIVATE_DATA) (sh : SharedLogState)
    (hFw : pllFirewallsValid st = true)
    (hMalloc : env.pvOSAL_MemAlloc_Ok = true) :
    (iPLL_SendBootRecords C env st sh).fed
      = fsblRecords env
        ++ (List.range C.PLL_LOG_MAX_RECS).filterMap
            (fun i => if st.pcBootLogs.getD i [] ≠ []
                      then some (st.pcBootLogs.getD i []) else none) := by
  unfold iPLL_SendBootRecords
  rw [if_pos hFw]
  dsimp only
  rw [if_pos hMalloc]
  dsimp only
  congr 1
  have hready0 : (pllIncStat PLL_STATS_MALLOC
      { st with iIsLogReady := true }).iIsLogReady = true := rfl
  have hp := pllDrainRecords_flowing_state C env (fsblRecords env)
    (pllIncStat PLL_STATS_MALLOC { st with iIsLogReady := true })
    { sh with ulLogIdx := 0 } hready0
  unfold pllDrainBootLogs
  rw [pllDrainBootLogsFedAux C env (List.range C.PLL_LOG_MAX_RECS) _ _ []
      (by exact hp.1)]
  rw [show (pllIncStat PLL_STATS_FREE
      (pllDrainRecords C env (fsblRecords env)
        (pllIncStat PLL_STATS_MALLOC { st with iIsLogReady := true })
        { sh with ulLogIdx := 0 }).1).pcBootLogs = st.pcBootLogs from hp.2]
  simp

/-- Example initialised state with two non-empty local boot-log slots. -/
def exStSlots : PLL_PRIVATE_DATA :=
  { exStInit with pcBootLogs := ["x".toList, "y".toList] }

/-- C8, witness: the drain order at a concrete state whose blob holds two
complete records plus a fragment and whose two local slots are full. -/
theorem C8_send_boot_records_order_witness :
    pllFirewallsValid exStSlots = true ∧
    exEnv.pvOSAL_MemAlloc_Ok = true ∧
    (iPLL_SendBootRecords exC exEnv exStSlots exSh).fed
      = fsblRecords exEnv
        ++ (List.range exC.PLL_LOG_MAX_RECS).filterMap
            (fun i => if exStSlots.pcBootLogs.getD i [] ≠ []
                      then some (exStSlots.pcBootLogs.getD i []) else none) :=
  ⟨by decide, by decide,
   C8_send_boot_records_order exC exEnv exStSlots exSh (by decide) (by decide)⟩

/-- Example shared region whose declared buffer length 9 exceeds the
PLL_LOG_BUF_LEN bound of 8 in the example constants. -/
def exShBig : SharedLogState := ⟨0, 9, [[], []]⟩

/-- C9, counterexample.  A successful iPLL_DumpLog call increments the
semaphore and print counters three times each through its nested vPLL_Printf
calls - not exactly one stat counter - and iPLL_ClearLog's refusal when the
declared buffer length exceeds PLL_LOG_BUF_LEN returns ERROR without
incrementing any counter at all (the state is bit-for-bit unchanged). -/
theorem C9_counterexample :
    (iPLL_DumpLog exC exEnv exStInit exSh).1 = CStatus.OK ∧
    (iPLL_DumpLog exC exEnv exStInit exSh).2.ulStats.getD PLL_STATS_PEND_SEMAPHORE 0 = 3 ∧
    (iPLL_DumpLog exC exEnv exStInit exSh).2.ulStats.getD PLL_STATS_POST_SEMAPHORE 0 = 3 ∧
    (iPLL_DumpLog exC exEnv exStInit exSh).2.ulStats.getD PLL_STATS_THREAD_SAFE_PRINT_COUNT 0 = 3 ∧
    exShBig.ulLogMsgBufferLen > exC.PLL_LOG_BUF_LEN ∧
    (iPLL_ClearLog exC exEnv exStInit exShBig).1 = CStatus.ERROR ∧
    (iPLL_ClearLog exC exEnv exStInit exShBig).2.1 = exStInit ∧
    (iPLL_ClearLog exC exEnv exStInit exShBig).2.2 = exShBig := by
  decide

/-- A successful, fully synchronised vPLL_Printf call changes the state by
exactly the pend, thread-safe-print and post stat increments. -/
theorem vPLL_Printf_sync_state (C : PllConsts) (env : OsalEnv)
    (pcFormat rendered : List Char) (st : PLL_PRIVATE_DATA)
    (hFw : pllFirewallsValid st = true) (hInit : st.iIsInitialised = true)
    (hLen : pcFormat.length ≤ C.PRINT_BUFFER_SIZE)
    (hPend : env.iOSAL_Semaphore_Pend_Ok = true)
    (hPost : env.iOSAL_Semaphore_Post_Ok = true) :
    (vPLL_Printf C env pcFormat rendered st).1
      = pllIncStat PLL_STATS_POST_SEMAPHORE
          (pllIncStat PLL_STATS_THREAD_SAFE_PRINT_COUNT
            (pllIncStat PLL_STATS_PEND_SEMAPHORE st)) := by
  unfold vPLL_Printf
  rw [if_pos ⟨hFw, hLen⟩, if_pos hInit, if_pos hPend]
  dsimp only
  rw [if_pos hPost]

/-- A successful, fully synchronised vPLL_Printf call leaves the error
counters, every stat counter other than the three print-path ones, the
sentinel validity and the initialised flag unchanged. -/
theorem vPLL_Printf_sync_counters (C : PllConsts) (env : OsalEnv)
    (pcFormat rendered : List Char) (st : PLL_PRIVATE_DATA) (j : Nat)
    (hFw : pllFirewallsValid st = true) (hInit : st.iIsInitialised = true)
    (hLen : pcFormat.length ≤ C.PRINT_BUFFER_SIZE)
    (hPend : env.iOSAL_Semaphore_Pend_Ok = true)
    (hPost : env.iOSAL_Semaphore_Post_Ok = true)
    (hj5 : j ≠ PLL_STATS_PEND_SEMAPHORE)
    (hj6 : j ≠ PLL_STATS_POST_SEMAPHORE)
    (hj7 : j ≠ PLL_STATS_THREAD_SAFE_PRINT_COUNT) :
    (vPLL_Printf C env pcFormat rendered st).1.ulErrors = st.ulErrors ∧
    (vPLL_Printf C env pcFormat rendered st).1.ulStats.getD j 0 = st.ulStats.getD j 0 ∧
    pllFirewallsValid (vPLL_Printf C env pcFormat rendered st).1 = true ∧
    (vPLL_Printf C env pcFormat rendered st).1.iIsInitialised = true := by
  rw [vPLL_Printf_sync_state C env pcFormat rendered st hFw hInit hLen hPend hPost]
  refine ⟨rfl, ?_, hFw, hInit⟩
  dsimp only [pllIncStat]
  rw [INC_STAT_COUNTER_getD_ne _ _ _ hj6, INC_STAT_COUNTER_getD_ne _ _ _ hj7,
      INC_STAT_COUNTER_getD_ne _ _ _ hj5]

/-- C9, amended.  Every public operation still returns a binary outcome, but
the one-counter-per-call discipline does not hold at the two cited places:
iPLL_DumpLog's success path increments no counter of its own - its state
effect is confined to the pend / thread-safe-print / post counters moved by
its nested vPLL_Printf calls, and its error counters do not move at all -
and iPLL_ClearLog's refusal when the declared buffer length exceeds
PLL_LOG_BUF_LEN returns ERROR with the state and shared region completely
unchanged, incrementing no error counter. -/
theorem C9_amended_counter_discipline (C : PllConsts) (env : OsalEnv)
    (st : PLL_PRIVATE_DATA) (sh : SharedLogState) (j : Nat)
    (hFw : pllFirewallsValid st = true) (hInit : st.iIsInitialised = true)
    (hPT : env.pvOSAL_MemCpy_PT_Ok = true)
    (hPend : env.iOSAL_Semaphore_Pend_Ok = true)
    (hPost : env.iOSAL_Semaphore_Post_Ok = true)
    (hPBS : 74 ≤ C.PRINT_BUFFER_SIZE)
    (hBig : C.PLL_LOG_BUF_LEN < sh.ulLogMsgBufferLen)
    (hj5 : j ≠ PLL_STATS_PEND_SEMAPHORE)
    (hj6 : j ≠ PLL_STATS_POST_SEMAPHORE)
    (hj7 : j ≠ PLL_STATS_THREAD_SAFE_PRINT_COUNT) :
    iPLL_ClearLog C env st sh = (CStatus.ERROR, st, sh) ∧
    (iPLL_DumpLog C env st sh).1 = CStatus.OK ∧
    (iPLL_DumpLog C env st sh).2.ulErrors = st.ulErrors ∧
    (iPLL_DumpLog C env st sh).2.ulStats.getD j 0 = st.ulStats.getD j 0 := by
  have hlen1 : pllDumpLogHeader1.length ≤ C.PRINT_BUFFER_SIZE := by
    have e : pllDumpLogHeader1.length = 74 := by decide
    omega
  have hlen2 : pllDumpLogHeader2.length ≤ C.PRINT_BUFFER_SIZE := by
    have e : pllDumpLogHeader2.length = 35 := by decide
    omega
  have hlen3 : pllDumpLogHeader3.length ≤ C.PRINT_BUFFER_SIZE := by
    have e : pllDumpLogHeader3.length = 74 := by decide
    omega
  have hlenF : pllDumpLogRecFmt.length ≤ C.PRINT_BUFFER_SIZE := by
    have e : pllDumpLogRecFmt.length = 4 := by decide
    omega
  have hdump : (iPLL_DumpLog C env st sh).1 = CStatus.OK ∧
      (pllFirewallsValid (iPLL_DumpLog C env st sh).2 = true ∧
       (iPLL_DumpLog C env st sh).2.iIsInitialised = true ∧
       (iPLL_DumpLog C env st sh).2.ulErrors = st.ulErrors ∧
       (iPLL_DumpLog C env st sh).2.ulStats.getD j 0 = st.ulStats.getD j 0) := by
    unfold iPLL_DumpLog
    rw [if_pos ⟨hFw, hInit⟩, if_pos hPT]
    dsimp only
    refine ⟨rfl, ?_⟩
    have h1 := vPLL_Printf_sync_counters C env pllDumpLogHeader1 pllDumpLogHeader1
      st j hFw hInit hlen1 hPend hPost hj5 hj6 hj7
    have h2 := vPLL_Printf_sync_counters C env pllDumpLogHeader2 pllDumpLogHeader2
      (vPLL_Printf C env pllDumpLogHeader1 pllDumpLogHeader1 st).1 j
      h1.2.2.1 h1.2.2.2 hlen2 hPend hPost hj5 hj6 hj7
    have h3 := vPLL_Printf_sync_counters C env pllDumpLogHeader3 pllDumpLogHeader3
      (vPLL_Printf C env pllDumpLogHeader2 pllDumpLogHeader2
        (vPLL_Printf C env pllDumpLogHeader1 pllDumpLogHeader1 st).1).1 j
      h2.2.2.1 h2.2.2.2 hlen3 hPend hPost hj5 hj6 hj7
    have hfold := pllFoldlInvariant
      (fun s => pllFirewallsValid s = true ∧ s.iIsInitialised = true ∧
        s.ulErrors = st.ulErrors ∧ s.ulStats.getD j 0 = st.ulStats.getD j 0)
      (fun s i =>
        let xMsgBuff := sh.ring.getD i []
        if xMsgBuff ≠ [] then
          (vPLL_Printf C env pllDumpLogRecFmt (xMsgBuff ++ "\r\n".toList) s).1
        else
          s)
      (List.range C.PLL_LOG_MAX_RECS)
      (vPLL_Printf C env pllDumpLogHeader3 pllDumpLogHeader3
        (vPLL_Printf C env pllDumpLogHeader2 pllDumpLogHeader2
          (vPLL_Printf C env pllDumpLogHeader1 pllDumpLogHeader1 st).1).1).1
      ⟨h3.2.2.1, h3.2.2.2,
       h3.1.trans (h2.1.trans h1.1),
       h3.2.1.trans (h2.2.1.trans h1.2.1)⟩
      ?_
    · exact ⟨hfold.1, hfold.2.1, hfold.2.2.1, hfold.2.2.2⟩
    · intro s i hs
      dsimp only
      split
      · have hc := vPLL_Printf_sync_counters C env pllDumpLogRecFmt
          (sh.ring.getD i [] ++ "\r\n".toList) s j hs.1 hs.2.1 hlenF hPend hPost
          hj5 hj6 hj7
        exact ⟨hc.2.2.1, hc.2.2.2, hc.1.trans hs.2.2.1, hc.2.1.trans hs.2.2.2⟩
      · exact hs
  refine ⟨?_, hdump.1, hdump.2.2.2.1, hdump.2.2.2.2⟩
  unfold iPLL_ClearLog
  rw [if_pos ⟨hFw, hInit⟩, if_pos hPT, if_neg (by omega)]

/-- C9, witness: the amended counter discipline at a concrete state whose
shared descriptor declares 9 bytes against the 8-byte bound. -/
theorem C9_amended_counter_discipline_witness :
    pllFirewallsValid exStInit = true ∧ exStInit.iIsInitialised = true ∧
    74 ≤ exC.PRINT_BUFFER_SIZE ∧
    exC.PLL_LOG_BUF_LEN < exShBig.ulLogMsgBufferLen ∧
    iPLL_ClearLog exC exEnv exStInit exShBig = (CStatus.ERROR, exStInit, exShBig) ∧
    (iPLL_DumpLog exC exEnv exStInit exShBig).1 = CStatus.OK ∧
    (iPLL_DumpLog exC exEnv exStInit exShBig).2.ulErrors = exStInit.ulErrors ∧
    (iPLL_DumpLog exC exEnv exStInit exShBig).2.ulStats.getD 0 0
      = exStInit.ulStats.getD 0 0 :=
  ⟨by decide, by decide, by decide, by decide,
   (C9_amended_counter_discipline exC exEnv exStInit exShBig 0 (by decide) (by decide)
      (by decide) (by decide) (by decide) (by decide) (by decide) (by decide)
      (by decide) (by decide)).1,
   (C9_amended_counter_discipline exC exEnv exStInit exShBig 0 (by decide) (by decide)
      (by decide) (by decide) (by decide) (by decide) (by decide) (by decide)
      (by decide) (by decide)).2.1,
   (C9_amended_counter_discipline exC exEnv exStInit exShBig 0 (by decide) (by decide)
      (by decide) (by decide) (by decide) (by decide) (by decide) (by decide)
      (by decide) (by decide)).2.2.1,
   (C9_amended_counter_discipline exC exEnv exStInit exShBig 0 (by decide) (by decide)
      (by decide) (by decide) (by decide) (by decide) (by decide) (by decide)
      (by decide) (by decide)).2.2.2⟩

/-- Stat increments never touch the sentinel fields. -/
theorem pllFw_incStat (x : Nat) (st : PLL_PRIVATE_DATA) :
    pllFw (pllIncStat x st) = pllFw st := rfl

/-- Error increments never touch the sentinel fields. -/
theorem pllFw_incError (x : Nat) (st : PLL_PRIVATE_DATA) :
    pllFw (pllIncError x st) = pllFw st := rfl

/-- vPLL_Printf never writes either sentinel. -/
theorem vPLL_Printf_fw (C : PllConsts) (env : OsalEnv)
    (pcFormat rendered : List Char) (st : PLL_PRIVATE_DATA) :
    pllFw (vPLL_Printf C env pcFormat rendered st).1 = pllFw st := by
  unfold vPLL_Printf
  dsimp only
  split_ifs <;> rfl

/-- vPLL_Output never writes either sentinel. -/
theorem vPLL_Output_fw (C : PllConsts) (env : OsalEnv) (S : Nat)
    (pcFormat rendered : List Char) (st : PLL_PRIVATE_DATA) (sh : SharedLogState) :
    pllFw (vPLL_Output C env S pcFormat rendered st sh).st = pllFw st := by
  unfold vPLL_Output
  dsimp only
  split_ifs <;> simp [pllFw_incStat, pllFw_incError, iLogCollect_fw]

/-- iPLL_DumpLog never writes either sentinel. -/
theorem iPLL_DumpLog_fw (C : PllConsts) (env : OsalEnv)
    (st : PLL_PRIVATE_DATA) (sh : SharedLogState) :
    pllFw (iPLL_DumpLog C env st sh).2 = pllFw st := by
  unfold iPLL_DumpLog
  split
  · split
    · dsimp only
      refine pllFoldlInvariant (fun s => pllFw s = pllFw st) _ _ _ ?_ ?_
      · dsimp only
        rw [vPLL_Printf_fw, vPLL_Printf_fw, vPLL_Printf_fw]
      · intro s i hs
        dsimp only
        split
        · rw [vPLL_Printf_fw]
          exact hs
        · exact hs
    · rfl
  · rfl

/-- iPLL_SendBootRecords never writes either sentinel. -/
theorem iPLL_SendBootRecords_fw (C : PllConsts) (env : OsalEnv)
    (st : PLL_PRIVATE_DATA) (sh : SharedLogState) :
    pllFw (iPLL_SendBootRecords C env st sh).st = pllFw st := by
  unfold iPLL_SendBootRecords
  split
  · dsimp only
    split
    · rw [(pllDrainBootLogs_state C env _ _).2, pllFw_incStat, pllDrainRecords_fw]
      rfl
    · rw [(pllDrainBootLogs_state C env _ _).2]
      rfl
  · rfl

/-- C10: no public operation writes either sentinel field - each operation's
resulting state carries the same ulUpperFirewall and ulLowerFirewall values
as its input state, on every input and in every state - and when the
sentinels are valid and the module is initialised, iPLL_ClearStatistics
zeroes exactly the two counter arrays and nothing else. -/
theorem C10_sentinels_never_written (C : PllConsts) (env : OsalEnv)
    (a b x S : Nat) (pxNonNull : Bool) (pcFormat rendered : List Char)
    (st : PLL_PRIVATE_DATA) (sh : SharedLogState) :
    pllFw (iPLL_Initialise env a b st).2 = pllFw st ∧
    pllFw (iPLL_SetOutputLevel C env x st).2 = pllFw st ∧
    pllFw (iPLL_GetOutputLevel env pxNonNull st).2.1 = pllFw st ∧
    pllFw (iPLL_SetLoggingLevel C env x st).2 = pllFw st ∧
    pllFw (iPLL_GetLoggingLevel env pxNonNull st).2.1 = pllFw st ∧
    pllFw (vPLL_Output C env S pcFormat rendered st sh).st = pllFw st ∧
    pllFw (vPLL_Printf C env pcFormat rendered st).1 = pllFw st ∧
    pllFw (iPLL_DumpLog C env st sh).2 = pllFw st ∧
    pllFw (iPLL_ClearLog C env st sh).2.1 = pllFw st ∧
    pllFw (iPLL_DumpFsblLog env st).2 = pllFw st ∧
    pllFw (iPLL_SendBootRecords C env st sh).st = pllFw st ∧
    pllFw (iPLL_PrintStatistics st).2 = pllFw st ∧
    pllFw (iPLL_ClearStatistics st).2 = pllFw st ∧
    (pllFirewallsValid st = true → st.iIsInitialised = true →
      iPLL_ClearStatistics st
        = (CStatus.OK, { st with ulStats := List.replicate PLL_STATS_MAX 0,
                                 ulErrors := List.replicate PLL_ERRORS_MAX 0 })) := by
  refine ⟨?_, ?_, ?_, ?_, ?_, vPLL_Output_fw C env S pcFormat rendered st sh,
    vPLL_Printf_fw C env pcFormat rendered st, iPLL_DumpLog_fw C env st sh, ?_, ?_,
    iPLL_SendBootRecords_fw C env st sh, ?_, ?_, ?_⟩
  · unfold iPLL_Initialise
    split_ifs <;> rfl
  · unfold iPLL_SetOutputLevel
    split_ifs <;> rfl
  · unfold iPLL_GetOutputLevel
    split_ifs <;> rfl
  · unfold iPLL_SetLoggingLevel
    split_ifs <;> rfl
  · unfold iPLL_GetLoggingLevel
    split_ifs <;> rfl
  · unfold iPLL_ClearLog
    split_ifs <;> rfl
  · unfold iPLL_DumpFsblLog
    split_ifs <;> rfl
  · unfold iPLL_PrintStatistics
    split_ifs <;> rfl
  · unfold iPLL_ClearStatistics
    split_ifs <;> rfl
  · intro hFw hInit
    unfold iPLL_ClearStatistics
    rw [if_pos ⟨hFw, hInit⟩]

/-- C10, witness: the sentinel preservation and the exact ClearStatistics
effect at concrete states. -/
theorem C10_sentinels_never_written_witness :
    pllFirewallsValid exStInit = true ∧ exStInit.iIsInitialised = true ∧
    pllFw (iPLL_SendBootRecords exC exEnv exStInit exSh).st = pllFw exStInit ∧
    pllFw (vPLL_Output exC exEnv 1 "hi".toList "hi".toList exStInit exSh).st
      = pllFw exStInit ∧
    iPLL_ClearStatistics exStInit
      = (CStatus.OK, { exStInit with ulStats := List.replicate PLL_STATS_MAX 0,
                                     ulErrors := List.replicate PLL_ERRORS_MAX 0 }) :=
  ⟨by decide, by decide,
   (C10_sentinels_never_written exC exEnv 0 0 1 1 true "hi".toList "hi".toList
      exStInit exSh).2.2.2.2.2.2.2.2.2.2.1,
   (C10_sentinels_never_written exC exEnv 0 0 1 1 true "hi".toList "hi".toList
      exStInit exSh).2.2.2.2.2.1,
   (C10_sentinels_never_written exC exEnv 0 0 1 1 true "hi".toList "hi".toList
      exStInit exSh).2.2.2.2.2.2.2.2.2.2.2.2.2 (by decide) (by decide)⟩
